import Mathlib

/-!
# Verification of the GraphBLAS generic-multiply-engine excerpt

A shallow embedding, in Lean 4, of the sampled SuiteSparse:GraphBLAS sources:

* Source/Generated/GB_unaryop__identity_int8_fc64.c
* Source/Generated/GB_unaryop__log1p_fc32_fc32.c
* Source/Generated/GB_binop__lt_uint8.c
* Source/GB_Global.c
* Test/GB_mex_AxB.c
* Demo/Source/dpagerank2.c

C doubles are embedded as exact rationals, C integers as Lean integers or
naturals (no arithmetic in the embedded fragment can overflow), C arrays as
functions from natural-number positions or as lists, and function pointers as
small inductive tags (pointer identity) paired, where a call must be executed,
with an explicit interpretation environment.
-/

/-- GrB_Info: the return codes of the C API (GraphBLAS.h). Only the codes the
sampled sources mention are listed. -/
inductive GrB_Info where
  | GrB_SUCCESS
  | GrB_NO_VALUE
  | GrB_DIMENSION_MISMATCH
  | GrB_DOMAIN_MISMATCH
  | GrB_OUT_OF_MEMORY
  | GrB_PANIC
deriving DecidableEq, Repr

/-- GrB_Mode: blocking or non-blocking execution mode (GraphBLAS.h). -/
inductive GrB_Mode where
  | GrB_NONBLOCKING
  | GrB_BLOCKING
deriving DecidableEq, Repr

/-- GxB_FC64_t: a double-precision complex value (real and imaginary part
both C doubles, embedded as rationals). -/
structure GxB_FC64_t where
  re : ℚ
  im : ℚ
deriving DecidableEq, Repr

/-- GxB_FC32_t: a single-precision complex value. -/
structure GxB_FC32_t where
  re : ℚ
  im : ℚ
deriving DecidableEq, Repr

/-- creal: real part of a double complex (C99 complex.h). -/
def creal (a : GxB_FC64_t) : ℚ := a.re

/-- uint8_t values. -/
abbrev uint8 := Fin 256

/-- Truncation of a rational toward zero, the C semantics of converting a
floating-point value to an integer type. -/
def GB_trunc_toward_zero (x : ℚ) : Int :=
  if x < 0 then Int.ceil x else Int.floor x

/-- Modelled from the spec: GB_cast_to_int8_t lives in GB_casting code that is
not under src/. The sampled kernel comment only states the contract
`int8_t cij = GB_cast_to_int8_t (creal (aij))`: a conversion of a double to
int8_t. It is embedded as truncation toward zero saturated to the int8_t
range; every theorem below uses this one definition on both sides, so only the
name, not the particular saturation policy, is load-bearing. -/
def GB_cast_to_int8_t (x : ℚ) : Int :=
  if x ≤ -128 then -128
  else if 127 ≤ x then 127
  else GB_trunc_toward_zero x

/-- The compile-time kernel-disabling configuration (GB_control.h — the
Generated kernels consult GxB_NO_* flags in their GB_DISABLE macros). Each
field is one of the GxB_NO_* macros the sampled kernels test. -/
structure GB_control where
  GxB_NO_IDENTITY : Bool
  GxB_NO_INT8 : Bool
  GxB_NO_FC64 : Bool
  GxB_NO_LOG1P : Bool
  GxB_NO_FC32 : Bool
deriving DecidableEq, Repr

/-- GB_DISABLE of GB_unaryop__identity_int8_fc64.c (lines 58-60):
(GxB_NO_IDENTITY || GxB_NO_INT8 || GxB_NO_FC64). -/
def GB_DISABLE_identity_int8_fc64 (c : GB_control) : Bool :=
  c.GxB_NO_IDENTITY || c.GxB_NO_INT8 || c.GxB_NO_FC64

/-- GB_DISABLE of GB_unaryop__log1p_fc32_fc32.c (lines 58-60):
(GxB_NO_LOG1P || GxB_NO_FC32). -/
def GB_DISABLE_log1p_fc32_fc32 (c : GB_control) : Bool :=
  c.GxB_NO_LOG1P || c.GxB_NO_FC32

/-- The shared body of every Generated/GB_unaryop__*.c apply kernel (each such
file is a macro instantiation of the one Generator template): if GB_DISABLE
holds, return GrB_NO_VALUE without touching Cx; otherwise run the loop
`for p in [0, anz): Cx[p] = castop(Ax[p])` (the loop body GB_CAST_OP expands to
`Cx[p] = op(cast(Ax[p]))`; `castop` here is that composite) and return
GrB_SUCCESS. The OpenMP parallel loop writes each position exactly once, so
its denotation is the pointwise update below. -/
def GB_unop_kernel {α β : Type} (disable : Bool) (castop : α → β)
    (Cx : ℕ → β) (Ax : ℕ → α) (anz : ℕ) : GrB_Info × (ℕ → β) :=
  if disable then (GrB_Info.GrB_NO_VALUE, Cx)
  else (GrB_Info.GrB_SUCCESS, fun p => if p < anz then castop (Ax p) else Cx p)

/-- The cast-op of GB_unaryop__identity_int8_fc64.c (GB_CAST_OP, lines 44-56):
z = GB_cast_to_int8_t (creal aij); cij = z. -/
def castop_identity_int8_fc64 (aij : GxB_FC64_t) : Int :=
  GB_cast_to_int8_t (creal aij)

/-- GB_unop__identity_int8_fc64 (GB_unaryop__identity_int8_fc64.c, lines
66-85): Cx = op (cast (Ax)). -/
def GB_unop__identity_int8_fc64 (ctrl : GB_control)
    (Cx : ℕ → Int) (Ax : ℕ → GxB_FC64_t) (anz : ℕ) : GrB_Info × (ℕ → Int) :=
  GB_unop_kernel (GB_DISABLE_identity_int8_fc64 ctrl)
    castop_identity_int8_fc64 Cx Ax anz

/-- GB_unop__log1p_fc32_fc32 (GB_unaryop__log1p_fc32_fc32.c, lines 66-85).
The complex primitive GB_clog1pf is not under src/ and complex-number math
primitives are an explicit non-goal of the spec, so the kernel is parameterized
by that function; every property proved about it holds for the real
GB_clog1pf in particular. -/
def GB_unop__log1p_fc32_fc32 (GB_clog1pf : GxB_FC32_t → GxB_FC32_t)
    (ctrl : GB_control) (Cx : ℕ → GxB_FC32_t) (Ax : ℕ → GxB_FC32_t)
    (anz : ℕ) : GrB_Info × (ℕ → GxB_FC32_t) :=
  GB_unop_kernel (GB_DISABLE_log1p_fc32_fc32 ctrl) GB_clog1pf Cx Ax anz

/-- Modelled from the spec: the generic apply kernel (GB_apply_op, not under
src/) performs the same computation as a specialized apply kernel through an
indirect operator call per element: Cx[i] = cast(op(cast(Ax[i]))) over the
contiguous value range [0, anz). -/
def GB_apply_op_generic {α β : Type} (castop : α → β)
    (Cx : ℕ → β) (Ax : ℕ → α) (anz : ℕ) : ℕ → β :=
  fun p => if p < anz then castop (Ax p) else Cx p

/-- Modelled from the spec: the apply dispatcher (the caller of the Generated
kernels, not under src/) first tries the specialized kernel; when that kernel
reports GrB_NO_VALUE (disabled or outside the built-in catalog), execution
falls back to the generic kernel, so the caller never sees GrB_NO_VALUE. -/
def GB_apply_dispatch {α β : Type} (disable : Bool) (castop : α → β)
    (Cx : ℕ → β) (Ax : ℕ → α) (anz : ℕ) : GrB_Info × (ℕ → β) :=
  match GB_unop_kernel disable castop Cx Ax anz with
  | (GrB_Info.GrB_NO_VALUE, _) =>
      (GrB_Info.GrB_SUCCESS, GB_apply_op_generic castop Cx Ax anz)
  | other => other

/-- GB_BINOP of GB_binop__lt_uint8.c (lines 43-44): z = (x < y). -/
def lt_uint8 (x y : uint8) : Bool := decide (x < y)

/-- Modelled from the spec: GB_AxB_colscale_meta.c is not under src/. Per the
spec, column-scale multiplies every structural entry A(i,j) of a sparse matrix
by the corresponding diagonal entry D(j,j); a pattern-only operand has its
values ignored, structural presence being treated as the multiplicative
identity. Entry p of the value array lies in column colOf p. -/
def GB_AxB_colscale_meta {α β γ : Type} (mult : α → β → γ) (oneA : α)
    (oneD : β) (A_is_pattern D_is_pattern : Bool) (Ax : ℕ → α) (Dx : ℕ → β)
    (colOf : ℕ → ℕ) (anz : ℕ) (Cx : ℕ → γ) : ℕ → γ :=
  fun p =>
    if p < anz then
      mult (if A_is_pattern then oneA else Ax p)
        (if D_is_pattern then oneD else Dx (colOf p))
    else Cx p

/-- GB_AxD__lt_uint8 (GB_binop__lt_uint8.c, lines 50-60): C = A*D, column
scale with diagonal D, instantiating the colscale template with the source's
GB_BINOP z = (x < y) over uint8_t operands. -/
def GB_AxD__lt_uint8 (A_is_pattern D_is_pattern : Bool) (Ax : ℕ → uint8)
    (Dx : ℕ → uint8) (colOf : ℕ → ℕ) (anz : ℕ) (Cx : ℕ → Bool) : ℕ → Bool :=
  GB_AxB_colscale_meta lt_uint8 1 1 A_is_pattern D_is_pattern
    Ax Dx colOf anz Cx

/-- Modelled from the spec: the generic column-scale path (not under src/)
performs the identical computation through an indirect operator call per
entry. -/
def GB_colscale_generic {α β γ : Type} (mult : α → β → γ) (oneA : α)
    (oneD : β) (A_is_pattern D_is_pattern : Bool) (Ax : ℕ → α) (Dx : ℕ → β)
    (colOf : ℕ → ℕ) (anz : ℕ) (Cx : ℕ → γ) : ℕ → γ :=
  fun p =>
    if p < anz then
      mult (if A_is_pattern then oneA else Ax p)
        (if D_is_pattern then oneD else Dx (colOf p))
    else Cx p

/-- A malloc-style function pointer: pointer identity only. ansi_malloc is the
ANSI C11 malloc; user-supplied functions carry an arbitrary tag. -/
inductive MallocFn where
  | ansi_malloc
  | user (tag : ℕ)
deriving DecidableEq, Repr

/-- A calloc-style function pointer. -/
inductive CallocFn where
  | ansi_calloc
  | user (tag : ℕ)
deriving DecidableEq, Repr

/-- A realloc-style function pointer. -/
inductive ReallocFn where
  | ansi_realloc
  | user (tag : ℕ)
deriving DecidableEq, Repr

/-- A free-style function pointer. -/
inductive FreeFn where
  | ansi_free
  | user (tag : ℕ)
deriving DecidableEq, Repr

/-- An abort-style function pointer. -/
inductive AbortFn where
  | ansi_abort
  | user (tag : ℕ)
deriving DecidableEq, Repr

/-- GB_Global_struct (GB_Global.c, lines 23-136): all process-wide global
state. Pointers (queue_head) are embedded as Option ℕ (none = NULL); C int
and int64_t fields as Int; C doubles as ℚ. -/
structure GB_Global_struct where
  queue_head : Option ℕ
  mode : GrB_Mode
  GrB_init_called : Bool
  nthreads_max : Int
  chunk : ℚ
  hyper_ratio : ℚ
  is_csc : Bool
  abort_function : AbortFn
  malloc_function : MallocFn
  calloc_function : CallocFn
  realloc_function : ReallocFn
  free_function : FreeFn
  malloc_is_thread_safe : Bool
  malloc_tracking : Bool
  nmalloc : Int
  malloc_debug : Bool
  malloc_debug_count : Int
  inuse : Int
  maxused : Int
  hack : Int
  burble : Bool
  print_one_based : Bool
  print_format : Int
deriving DecidableEq, Repr

/-- Modelled from the spec: GB_CHUNK_DEFAULT is defined in GB.h, which is not
under src/; the spec mentions only a "parallel chunk-size threshold" with a
default. The reference value 64K is used; the theorems below depend only on
its being at least 1. -/
def GB_CHUNK_DEFAULT : ℚ := 65536

/-- Modelled from the spec: GB_HYPER_DEFAULT (the default hypersparsity
density threshold) is defined in GB.h, which is not under src/. The reference
value 1/16 is used; no theorem below depends on the value. -/
def GB_HYPER_DEFAULT : ℚ := 1 / 16

/-- GxB_DEFAULT as a double: the enum constant has value 0. -/
def GxB_DEFAULT_fp : ℚ := 0

/-- GB_IMAX (GB.h macro): integer maximum. -/
def GB_IMAX (x y : Int) : Int := if x > y then x else y

/-- The static initializer of GB_Global (GB_Global.c, lines 140-185). The
initializer comment records that GB_FORMAT_DEFAULT is GxB_BY_ROW, so
is_csc = (GB_FORMAT_DEFAULT != GxB_BY_ROW) = false. -/
def GB_Global : GB_Global_struct where
  queue_head := none
  mode := GrB_Mode.GrB_NONBLOCKING
  GrB_init_called := false
  nthreads_max := 1
  chunk := GB_CHUNK_DEFAULT
  hyper_ratio := GB_HYPER_DEFAULT
  is_csc := false
  abort_function := AbortFn.ansi_abort
  malloc_function := MallocFn.ansi_malloc
  calloc_function := CallocFn.ansi_calloc
  realloc_function := ReallocFn.ansi_realloc
  free_function := FreeFn.ansi_free
  malloc_is_thread_safe := true
  malloc_tracking := false
  nmalloc := 0
  malloc_debug := false
  malloc_debug_count := 0
  inuse := 0
  maxused := 0
  hack := 0
  burble := false
  print_one_based := false
  print_format := 0

/-- GB_Global_queue_head_set (GB_Global.c, lines 196-199). -/
def GB_Global_queue_head_set (p : Option ℕ) (g : GB_Global_struct) :
    GB_Global_struct := { g with queue_head := p }

/-- GB_Global_queue_head_get (GB_Global.c, lines 202-205). -/
def GB_Global_queue_head_get (g : GB_Global_struct) : Option ℕ := g.queue_head

/-- GB_Global_mode_set (GB_Global.c, lines 211-214). -/
def GB_Global_mode_set (mode : GrB_Mode) (g : GB_Global_struct) :
    GB_Global_struct := { g with mode := mode }

/-- GB_Global_mode_get (GB_Global.c, lines 216-219). -/
def GB_Global_mode_get (g : GB_Global_struct) : GrB_Mode := g.mode

/-- GB_Global_GrB_init_called_set (GB_Global.c, lines 226-229). -/
def GB_Global_GrB_init_called_set (b : Bool) (g : GB_Global_struct) :
    GB_Global_struct := { g with GrB_init_called := b }

/-- GB_Global_GrB_init_called_get (GB_Global.c, lines 232-235). -/
def GB_Global_GrB_init_called_get (g : GB_Global_struct) : Bool :=
  g.GrB_init_called

/-- GB_Global_nthreads_max_set (GB_Global.c, lines 242-245):
GB_Global.nthreads_max = GB_IMAX (nthreads_max, 1). -/
def GB_Global_nthreads_max_set (nthreads_max : Int) (g : GB_Global_struct) :
    GB_Global_struct := { g with nthreads_max := GB_IMAX nthreads_max 1 }

/-- GB_Global_nthreads_max_get (GB_Global.c, lines 248-251). -/
def GB_Global_nthreads_max_get (g : GB_Global_struct) : Int := g.nthreads_max

/-- GB_Global_chunk_set (GB_Global.c, lines 268-272):
if (chunk <= GxB_DEFAULT) chunk = GB_CHUNK_DEFAULT;
GB_Global.chunk = fmax (chunk, 1). -/
def GB_Global_chunk_set (chunk : ℚ) (g : GB_Global_struct) :
    GB_Global_struct :=
  let chunk := if chunk ≤ GxB_DEFAULT_fp then GB_CHUNK_DEFAULT else chunk
  { g with chunk := max chunk 1 }

/-- GB_Global_chunk_get (GB_Global.c, lines 275-278). -/
def GB_Global_chunk_get (g : GB_Global_struct) : ℚ := g.chunk

/-- GB_Global_hyper_ratio_set (GB_Global.c, lines 284-287). -/
def GB_Global_hyper_ratio_set (hyper_ratio : ℚ) (g : GB_Global_struct) :
    GB_Global_struct := { g with hyper_ratio := hyper_ratio }

/-- GB_Global_hyper_ratio_get (GB_Global.c, lines 289-292). -/
def GB_Global_hyper_ratio_get (g : GB_Global_struct) : ℚ := g.hyper_ratio

/-- GB_Global_is_csc_set (GB_Global.c, lines 298-304). -/
def GB_Global_is_csc_set (is_csc : Bool) (g : GB_Global_struct) :
    GB_Global_struct := { g with is_csc := is_csc }

/-- GB_Global_is_csc_get (GB_Global.c, lines 306-312). -/
def GB_Global_is_csc_get (g : GB_Global_struct) : Bool := g.is_csc

/-- GB_Global_abort_function_set (GB_Global.c, lines 319-322). -/
def GB_Global_abort_function_set (f : AbortFn) (g : GB_Global_struct) :
    GB_Global_struct := { g with abort_function := f }

/-- GB_Global_malloc_function_set (GB_Global.c, lines 334-337). -/
def GB_Global_malloc_function_set (f : MallocFn) (g : GB_Global_struct) :
    GB_Global_struct := { g with malloc_function := f }

/-- GB_Global_calloc_function_set (GB_Global.c, lines 362-365). -/
def GB_Global_calloc_function_set (f : CallocFn) (g : GB_Global_struct) :
    GB_Global_struct := { g with calloc_function := f }

/-- GB_Global_realloc_function_set (GB_Global.c, lines 391-397). -/
def GB_Global_realloc_function_set (f : ReallocFn) (g : GB_Global_struct) :
    GB_Global_struct := { g with realloc_function := f }

/-- GB_Global_free_function_set (GB_Global.c, lines 423-426). -/
def GB_Global_free_function_set (f : FreeFn) (g : GB_Global_struct) :
    GB_Global_struct := { g with free_function := f }

/-- GB_Global_malloc_is_thread_safe_set (GB_Global.c, lines 453-456). -/
def GB_Global_malloc_is_thread_safe_set (b : Bool) (g : GB_Global_struct) :
    GB_Global_struct := { g with malloc_is_thread_safe := b }

/-- GB_Global_malloc_is_thread_safe_get (GB_Global.c, lines 459-462). -/
def GB_Global_malloc_is_thread_safe_get (g : GB_Global_struct) : Bool :=
  g.malloc_is_thread_safe

/-- GB_Global_malloc_function (GB_Global.c, lines 339-356): call the active
malloc function pointer, directly if the allocator set is thread-safe and
inside the process-wide critical section otherwise; return the allocator's
result (none = NULL on failure). The call itself is executed through the
interpretation environment interp (the machine's dereference of the function
pointer); the Bool in the result records whether the call ran inside the
critical section. The local ok is initialized true and never cleared, so
(ok ? p : NULL) = p. -/
def GB_Global_malloc_function (interp : MallocFn → ℕ → Option ℕ)
    (g : GB_Global_struct) (size : ℕ) : Option ℕ × Bool :=
  if g.malloc_is_thread_safe then (interp g.malloc_function size, false)
  else (interp g.malloc_function size, true)

/-- GB_Global_calloc_function (GB_Global.c, lines 367-385): as for malloc,
with a (count, size) argument pair. -/
def GB_Global_calloc_function (interp : CallocFn → ℕ → ℕ → Option ℕ)
    (g : GB_Global_struct) (count size : ℕ) : Option ℕ × Bool :=
  if g.malloc_is_thread_safe then (interp g.calloc_function count size, false)
  else (interp g.calloc_function count size, true)

/-- GB_Global_realloc_function (GB_Global.c, lines 399-417): as for malloc,
with a (pointer, size) argument pair. -/
def GB_Global_realloc_function (interp : ReallocFn → Option ℕ → ℕ → Option ℕ)
    (g : GB_Global_struct) (p : Option ℕ) (size : ℕ) : Option ℕ × Bool :=
  if g.malloc_is_thread_safe then (interp g.realloc_function p size, false)
  else (interp g.realloc_function p size, true)

/-- GB_Global_free_function (GB_Global.c, lines 428-446): free returns
nothing; the result records only whether the call to the active free function
ran inside the critical section, and which pointer was passed through. -/
def GB_Global_free_function (g : GB_Global_struct) (p : Option ℕ) :
    (FreeFn × Option ℕ) × Bool :=
  if g.malloc_is_thread_safe then ((g.free_function, p), false)
  else ((g.free_function, p), true)

/-- One call to a setter of GB_Global.c, as an action on the global state.
Only state-mutating entry points appear; getters do not change the state. -/
inductive GB_Global_step : GB_Global_struct → GB_Global_struct → Prop where
  | queue_head_set (p : Option ℕ) (g : GB_Global_struct) :
      GB_Global_step g (GB_Global_queue_head_set p g)
  | mode_set (m : GrB_Mode) (g : GB_Global_struct) :
      GB_Global_step g (GB_Global_mode_set m g)
  | GrB_init_called_set (b : Bool) (g : GB_Global_struct) :
      GB_Global_step g (GB_Global_GrB_init_called_set b g)
  | nthreads_max_set (v : Int) (g : GB_Global_struct) :
      GB_Global_step g (GB_Global_nthreads_max_set v g)
  | chunk_set (c : ℚ) (g : GB_Global_struct) :
      GB_Global_step g (GB_Global_chunk_set c g)
  | hyper_ratio_set (h : ℚ) (g : GB_Global_struct) :
      GB_Global_step g (GB_Global_hyper_ratio_set h g)
  | is_csc_set (b : Bool) (g : GB_Global_struct) :
      GB_Global_step g (GB_Global_is_csc_set b g)
  | abort_function_set (f : AbortFn) (g : GB_Global_struct) :
      GB_Global_step g (GB_Global_abort_function_set f g)
  | malloc_function_set (f : MallocFn) (g : GB_Global_struct) :
      GB_Global_step g (GB_Global_malloc_function_set f g)
  | calloc_function_set (f : CallocFn) (g : GB_Global_struct) :
      GB_Global_step g (GB_Global_calloc_function_set f g)
  | realloc_function_set (f : ReallocFn) (g : GB_Global_struct) :
      GB_Global_step g (GB_Global_realloc_function_set f g)
  | free_function_set (f : FreeFn) (g : GB_Global_struct) :
      GB_Global_step g (GB_Global_free_function_set f g)
  | malloc_is_thread_safe_set (b : Bool) (g : GB_Global_struct) :
      GB_Global_step g (GB_Global_malloc_is_thread_safe_set b g)

/-- A global state reachable from the static initializer by any sequence of
setter calls. -/
def GB_Global_reachable (g : GB_Global_struct) : Prop :=
  Relation.ReflTransGen GB_Global_step GB_Global g

/-- The state of the process-wide pending-matrix set (the queue whose head
GB_Global.queue_head points to): the list of queued matrix identifiers, and
for each matrix whether its pending tuples have been assembled
(materialized). -/
structure PendingState where
  queue : List ℕ
  assembled : ℕ → Bool

/-- Modelled from the spec: GrB_wait itself is not under src/; GB_Global.c
(lines 36-49) documents its algorithm: it iterates through the entire queue
and assembles all the pending tuples for all the matrices in the list,
leaving the list empty. The result carries the GrB_Info code, the new state,
and the number of matrices materialized by this call (its materialization
work). -/
def GrB_wait (s : PendingState) : GrB_Info × PendingState × ℕ :=
  (GrB_Info.GrB_SUCCESS,
   { queue := []
     assembled := fun m => if m ∈ s.queue then true else s.assembled m },
   s.queue.length)

/-- The dimensions of a matrix operand as the test harness sees them
(GB_NROWS / GB_NCOLS). -/
structure MexMatrix where
  nrows : ℕ
  ncols : ℕ
deriving DecidableEq, Repr

/-- GB_mex_AxB.c, lines 243-246: the effective dimensions of op(A) and op(B)
after applying the transpose flags, as (anrows, ancols, bnrows, bncols). -/
def GB_mex_AxB_dims (A B : MexMatrix) (atranspose btranspose : Bool) :
    ℕ × ℕ × ℕ × ℕ :=
  ((if atranspose then A.ncols else A.nrows),
   (if atranspose then A.nrows else A.ncols),
   (if btranspose then B.ncols else B.nrows),
   (if btranspose then B.nrows else B.ncols))

/-- Modelled from the spec: the multiply engine (GB_AxB_meta / GrB_mxm) is not
under src/; per the spec a multiply whose inner dimensions disagree after
applying the transpose flags is rejected with DimensionMismatch before any
computation is performed. The actual product is abstracted as the thunk
compute, invoked only after the precondition check passes; dimensions are
computed exactly as the harness computes them (GB_mex_AxB.c, lines 243-251,
which refuses to proceed when ancols is not bnrows). -/
def GB_AxB_meta {γ : Type} (compute : Unit → γ) (A B : MexMatrix)
    (atranspose btranspose : Bool) : GrB_Info × Option γ :=
  let dims := GB_mex_AxB_dims A B atranspose btranspose
  let ancols := dims.2.1
  let bnrows := dims.2.2.1
  if ancols ≠ bnrows then (GrB_Info.GrB_DIMENSION_MISMATCH, none)
  else (GrB_Info.GrB_SUCCESS, some (compute ()))

/-- PageRank (Demo/Include/graphblas_demos.h): one ranked page, with its
pagerank (a C double, embedded as ℚ) and its node number (page = -1 marks an
unranked sentinel entry, so the field is an integer). -/
structure PageRank where
  pagerank : ℚ
  page : Int
deriving DecidableEq, Repr

/-- pagerank_compar (dpagerank2.c, lines 208-226): the qsort comparison,
sorting by pagerank in descending order. -/
def pagerank_compar (a b : PageRank) : Int :=
  if a.pagerank > b.pagerank then -1
  else if a.pagerank = b.pagerank then 0
  else 1

/-- The ordering induced by pagerank_compar: a precedes b when the comparison
does not place a after b. -/
def pagerank_le (a b : PageRank) : Prop := pagerank_compar a b ≤ 0

instance : DecidableRel pagerank_le := fun a b => by
  unfold pagerank_le; infer_instance

/-- The comparator orders a before b exactly when the pagerank of b does not
exceed that of a. -/
lemma pagerank_le_iff (a b : PageRank) :
    pagerank_le a b ↔ b.pagerank ≤ a.pagerank := by
  unfold pagerank_le pagerank_compar
  rcases lt_trichotomy b.pagerank a.pagerank with h | h | h
  · simp [h, h.le]
  · simp [h, le_of_eq h]
  · simp [not_lt.mpr h.le, (ne_of_gt h), not_le.mpr h, (ne_of_lt h)]

instance : IsTotal PageRank pagerank_le where
  total a b := by
    rw [pagerank_le_iff, pagerank_le_iff]
    exact (le_total b.pagerank a.pagerank)

instance : IsTrans PageRank pagerank_le where
  trans a b c hab hbc := by
    rw [pagerank_le_iff] at *
    exact le_trans hbc hab

/-- dpagerank2, result-construction phase (dpagerank2.c, lines 397-433): after
extracting the nvals ranked (page, rank) tuples I and X from the rank vector,
the output array P of length n is built with P[k] = (X[k], I[k]) for
k < nvals and the sentinel P[k] = (0, -1) for nvals <= k < n; qsort then
sorts the first nvals entries by pagerank_compar (descending pagerank). The
GraphBLAS iteration producing I and X is out of reach here (its operations
are not under src/), so I and X are the inputs of this phase. -/
def dpagerank2_result (n : ℕ) (I : List Int) (X : List ℚ) : List PageRank :=
  let ranked := List.zipWith (fun x i => PageRank.mk x i) X I
  List.insertionSort pagerank_le ranked ++
    List.replicate (n - ranked.length) (PageRank.mk 0 (-1))

/-!
## Theorems
-/

/-- A fixed control configuration with every GxB_NO_* flag clear (the default
build, in which no kernel is disabled). -/
def ctrl_default : GB_control :=
  { GxB_NO_IDENTITY := false, GxB_NO_INT8 := false, GxB_NO_FC64 := false,
    GxB_NO_LOG1P := false, GxB_NO_FC32 := false }

/-- C1: for every built-in (element type, operator) pair present in both
paths and every input value array, running an apply through the generic
kernel and through the corresponding specialized kernel (here
GB_unop__log1p_fc32_fc32, GB_unop__identity_int8_fc64, and the colscale
kernel GB_AxD__lt_uint8) produces identical observable output for identical
input: specialization never changes results. -/
theorem specialization_never_changes_results :
    (∀ (GB_clog1pf : GxB_FC32_t → GxB_FC32_t) (ctrl : GB_control)
        (Cx Ax : ℕ → GxB_FC32_t) (anz : ℕ),
        GB_DISABLE_log1p_fc32_fc32 ctrl = false →
        (GB_unop__log1p_fc32_fc32 GB_clog1pf ctrl Cx Ax anz).2 =
          GB_apply_op_generic GB_clog1pf Cx Ax anz) ∧
    (∀ (ctrl : GB_control) (Cx : ℕ → Int) (Ax : ℕ → GxB_FC64_t) (anz : ℕ),
        GB_DISABLE_identity_int8_fc64 ctrl = false →
        (GB_unop__identity_int8_fc64 ctrl Cx Ax anz).2 =
          GB_apply_op_generic castop_identity_int8_fc64 Cx Ax anz) ∧
    (∀ (Ap Dp : Bool) (Ax Dx : ℕ → uint8) (colOf : ℕ → ℕ) (anz : ℕ)
        (Cx : ℕ → Bool),
        GB_AxD__lt_uint8 Ap Dp Ax Dx colOf anz Cx =
          GB_colscale_generic lt_uint8 1 1 Ap Dp Ax Dx colOf anz Cx) := by
  refine ⟨?_, ?_, ?_⟩
  · intro f ctrl Cx Ax anz hd
    unfold GB_unop__log1p_fc32_fc32 GB_unop_kernel
    rw [hd]
    rfl
  · intro ctrl Cx Ax anz hd
    unfold GB_unop__identity_int8_fc64 GB_unop_kernel
    rw [hd]
    rfl
  · intro Ap Dp Ax Dx colOf anz Cx
    rfl

/-- Witness for C1 at a concrete configuration and input. -/
theorem specialization_never_changes_results_witness :
    GB_DISABLE_log1p_fc32_fc32 ctrl_default = false ∧
    (GB_unop__log1p_fc32_fc32 id ctrl_default (fun _ => GxB_FC32_t.mk 0 0)
        (fun p => GxB_FC32_t.mk p 1) 2).2 =
      GB_apply_op_generic id (fun _ => GxB_FC32_t.mk 0 0)
        (fun p => GxB_FC32_t.mk p 1) 2 :=
  ⟨rfl, specialization_never_changes_results.1 id ctrl_default _ _ 2 rfl⟩

/-- C2: the specialized elementwise-apply kernel
GB_unop__identity_int8_fc64, when not disabled, writes
Cx[p] = cast(op(cast(Ax[p]))) = int8 cast of the real part of Ax[p] at every
position p < anz, and returns GrB_SUCCESS. -/
theorem unop_identity_int8_fc64_correct (ctrl : GB_control) (Cx : ℕ → Int)
    (Ax : ℕ → GxB_FC64_t) (anz p : ℕ)
    (hd : GB_DISABLE_identity_int8_fc64 ctrl = false) (hp : p < anz) :
    (GB_unop__identity_int8_fc64 ctrl Cx Ax anz).1 = GrB_Info.GrB_SUCCESS ∧
    (GB_unop__identity_int8_fc64 ctrl Cx Ax anz).2 p =
      GB_cast_to_int8_t (creal (Ax p)) := by
  unfold GB_unop__identity_int8_fc64 GB_unop_kernel
  rw [hd]
  exact ⟨rfl, by simp [hp, castop_identity_int8_fc64]⟩

/-- Witness for C2: input value 5/2 + 7i at position 0 is cast to 2. -/
theorem unop_identity_int8_fc64_correct_witness :
    GB_DISABLE_identity_int8_fc64 ctrl_default = false ∧ (0 : ℕ) < 1 ∧
    ((GB_unop__identity_int8_fc64 ctrl_default (fun _ => 0)
        (fun _ => GxB_FC64_t.mk (5 / 2) 7) 1).1 = GrB_Info.GrB_SUCCESS ∧
     (GB_unop__identity_int8_fc64 ctrl_default (fun _ => 0)
        (fun _ => GxB_FC64_t.mk (5 / 2) 7) 1).2 0 =
       GB_cast_to_int8_t (creal (GxB_FC64_t.mk (5 / 2) 7))) :=
  ⟨rfl, Nat.zero_lt_one,
    unop_identity_int8_fc64_correct ctrl_default _ _ 1 0 rfl Nat.zero_lt_one⟩

/-- C3: a disabled specialized kernel performs no computation on its output
(the value array comes back unchanged) and signals GrB_NO_VALUE; the
dispatcher then falls back to the generic kernel, so a disabled or
unsupported combination is never surfaced to the caller as a failure: the
dispatch always reports GrB_SUCCESS. -/
theorem disabled_kernel_soft_fallback {α β : Type} (disable : Bool)
    (castop : α → β) (Cx : ℕ → β) (Ax : ℕ → α) (anz : ℕ) :
    (disable = true →
      GB_unop_kernel disable castop Cx Ax anz = (GrB_Info.GrB_NO_VALUE, Cx)) ∧
    (GB_apply_dispatch disable castop Cx Ax anz).1 = GrB_Info.GrB_SUCCESS ∧
    (GB_apply_dispatch disable castop Cx Ax anz).2 =
      GB_apply_op_generic castop Cx Ax anz := by
  cases disable with
  | false => exact ⟨fun h => Bool.noConfusion h, rfl, rfl⟩
  | true => exact ⟨fun _ => rfl, rfl, rfl⟩

/-- Witness for C3 at a disabled kernel on a concrete array. -/
theorem disabled_kernel_soft_fallback_witness :
    GB_unop_kernel true (fun n : ℕ => n + 1) (fun _ => 0) (fun p => p) 3 =
      (GrB_Info.GrB_NO_VALUE, fun _ => 0) ∧
    (GB_apply_dispatch true (fun n : ℕ => n + 1) (fun _ => 0)
        (fun p => p) 3).1 = GrB_Info.GrB_SUCCESS :=
  ⟨(disabled_kernel_soft_fallback true _ _ _ 3).1 rfl,
   (disabled_kernel_soft_fallback true (fun n : ℕ => n + 1) (fun _ => 0)
      (fun p => p) 3).2.1⟩

/-- C4: GrB_wait traverses the pending set once, materializes every matrix in
it, and leaves the set empty, returning success; it is idempotent: a second
call with nothing pending performs zero materialization work, changes
nothing, and returns success. -/
theorem wait_materializes_all_and_idempotent (s : PendingState) :
    (GrB_wait s).1 = GrB_Info.GrB_SUCCESS ∧
    (GrB_wait s).2.1.queue = [] ∧
    (∀ m, m ∈ s.queue → (GrB_wait s).2.1.assembled m = true) ∧
    (GrB_wait s).2.2 = s.queue.length ∧
    GrB_wait (GrB_wait s).2.1 = (GrB_Info.GrB_SUCCESS, (GrB_wait s).2.1, 0) := by
  refine ⟨rfl, rfl, fun m hm => by simp [GrB_wait, hm], rfl, ?_⟩
  unfold GrB_wait
  simp

/-- Witness for C4: a single pending matrix (id 3) is materialized. -/
theorem wait_materializes_all_and_idempotent_witness :
    (3 : ℕ) ∈ [3] ∧
    (GrB_wait (PendingState.mk [3] (fun _ => false))).2.1.assembled 3 = true :=
  ⟨List.mem_singleton.mpr rfl,
   (wait_materializes_all_and_idempotent
      (PendingState.mk [3] (fun _ => false))).2.2.1 3
     (List.mem_singleton.mpr rfl)⟩

/-- C5: a multiply whose inner dimensions disagree after applying the
transpose flags is rejected with DimensionMismatch before any computation is
performed: the result is the error code and no output, for every possible
compute function. -/
theorem multiply_rejects_dimension_mismatch {γ : Type} (compute : Unit → γ)
    (A B : MexMatrix) (atranspose btranspose : Bool)
    (h : (if atranspose then A.nrows else A.ncols) ≠
         (if btranspose then B.ncols else B.nrows)) :
    GB_AxB_meta compute A B atranspose btranspose =
      (GrB_Info.GrB_DIMENSION_MISMATCH, none) := by
  simp only [GB_AxB_meta, GB_mex_AxB_dims]
  rw [if_pos h]

/-- Witness for C5: a 2 by 3 matrix times a 2 by 2 matrix, no transposes. -/
theorem multiply_rejects_dimension_mismatch_witness :
    ((3 : ℕ) ≠ 2) ∧
    GB_AxB_meta (fun _ => (0 : ℕ)) (MexMatrix.mk 2 3) (MexMatrix.mk 2 2)
      false false = (GrB_Info.GrB_DIMENSION_MISMATCH, none) :=
  ⟨by decide,
   multiply_rejects_dimension_mismatch (fun _ => (0 : ℕ))
     (MexMatrix.mk 2 3) (MexMatrix.mk 2 2) false false (by decide)⟩

/-- Counterexample to C6: the thread-count-ceiling setter clamps its argument
to at least 1, so setting 0 and reading back returns 1, not 0: set-then-get
is not the identity for every value. -/
theorem nthreads_set_get_not_identity :
    GB_Global_nthreads_max_get (GB_Global_nthreads_max_set 0 GB_Global) ≠ 0 := by
  decide

/-- C6 as amended: each configuration parameter is a plain get/set pair in
the sense that the getter returns exactly the value last given to the setter,
for every value in the parameter's accepted range: any value for the
execution mode, the hypersparsity density threshold and the default storage
orientation, and any value at least 1 for the thread-count ceiling and the
parallel chunk-size threshold (smaller values are clamped). -/
theorem config_set_get_roundtrip :
    (∀ (m : GrB_Mode) (g : GB_Global_struct),
        GB_Global_mode_get (GB_Global_mode_set m g) = m) ∧
    (∀ (v : Int) (g : GB_Global_struct), 1 ≤ v →
        GB_Global_nthreads_max_get (GB_Global_nthreads_max_set v g) = v) ∧
    (∀ (c : ℚ) (g : GB_Global_struct), 1 ≤ c →
        GB_Global_chunk_get (GB_Global_chunk_set c g) = c) ∧
    (∀ (h : ℚ) (g : GB_Global_struct),
        GB_Global_hyper_ratio_get (GB_Global_hyper_ratio_set h g) = h) ∧
    (∀ (b : Bool) (g : GB_Global_struct),
        GB_Global_is_csc_get (GB_Global_is_csc_set b g) = b) := by
  refine ⟨fun m g => rfl, ?_, ?_, fun h g => rfl, fun b g => rfl⟩
  · intro v g hv
    simp only [GB_Global_nthreads_max_get, GB_Global_nthreads_max_set, GB_IMAX]
    rcases lt_or_le 1 v with h1 | h1
    · rw [if_pos h1]
    · rw [if_neg (not_lt.mpr h1)]
      omega
  · intro c g hc
    have h0 : ¬ (c ≤ GxB_DEFAULT_fp) := by
      unfold GxB_DEFAULT_fp
      exact not_le.mpr (lt_of_lt_of_le one_pos hc)
    simp only [GB_Global_chunk_get, GB_Global_chunk_set, if_neg h0]
    exact max_eq_left hc

/-- Witness for the amended C6 at concrete in-range values. -/
theorem config_set_get_roundtrip_witness :
    (1 : Int) ≤ 4 ∧ (1 : ℚ) ≤ 3 / 2 ∧
    GB_Global_nthreads_max_get (GB_Global_nthreads_max_set 4 GB_Global) = 4 ∧
    GB_Global_chunk_get (GB_Global_chunk_set (3 / 2) GB_Global) = 3 / 2 ∧
    GB_Global_mode_get (GB_Global_mode_set GrB_Mode.GrB_BLOCKING GB_Global) =
      GrB_Mode.GrB_BLOCKING :=
  ⟨by decide, by norm_num,
   config_set_get_roundtrip.2.1 4 GB_Global (by decide),
   config_set_get_roundtrip.2.2.1 (3 / 2) GB_Global (by norm_num),
   config_set_get_roundtrip.1 GrB_Mode.GrB_BLOCKING GB_Global⟩

/-- C7: before any caller replaces it, the active allocator function set is
the platform (ANSI C) malloc, calloc, realloc and free, and its
thread-safety flag is true. -/
theorem allocator_defaults :
    GB_Global.malloc_function = MallocFn.ansi_malloc ∧
    GB_Global.calloc_function = CallocFn.ansi_calloc ∧
    GB_Global.realloc_function = ReallocFn.ansi_realloc ∧
    GB_Global.free_function = FreeFn.ansi_free ∧
    GB_Global_malloc_is_thread_safe_get GB_Global = true :=
  ⟨rfl, rfl, rfl, rfl, rfl⟩

/-- C8: every call into the active allocator set runs inside the process-wide
critical section exactly when the thread-safety flag is false and directly
when it is true (the Bool component records the critical section), and in
both cases the wrapper passes through the allocator's own result, including
a NULL (none) failure result. -/
theorem allocator_calls_respect_thread_safety (g : GB_Global_struct) :
    (∀ (interp : MallocFn → ℕ → Option ℕ) (size : ℕ),
        GB_Global_malloc_function interp g size =
          (interp g.malloc_function size, !g.malloc_is_thread_safe)) ∧
    (∀ (interp : CallocFn → ℕ → ℕ → Option ℕ) (count size : ℕ),
        GB_Global_calloc_function interp g count size =
          (interp g.calloc_function count size, !g.malloc_is_thread_safe)) ∧
    (∀ (interp : ReallocFn → Option ℕ → ℕ → Option ℕ) (p : Option ℕ)
        (size : ℕ),
        GB_Global_realloc_function interp g p size =
          (interp g.realloc_function p size, !g.malloc_is_thread_safe)) ∧
    (∀ (p : Option ℕ),
        GB_Global_free_function g p =
          ((g.free_function, p), !g.malloc_is_thread_safe)) := by
  have hb : g.malloc_is_thread_safe = true ∨ g.malloc_is_thread_safe = false :=
    Bool.eq_false_or_eq_true g.malloc_is_thread_safe
  refine ⟨fun interp size => ?_, fun interp count size => ?_,
    fun interp p size => ?_, fun p => ?_⟩ <;>
    rcases hb with h | h <;>
      simp [GB_Global_malloc_function, GB_Global_calloc_function,
        GB_Global_realloc_function, GB_Global_free_function, h]

/-- GB_IMAX is the integer maximum. -/
lemma GB_IMAX_eq_max (x y : Int) : GB_IMAX x y = max x y := by
  unfold GB_IMAX
  rcases lt_or_le y x with h | h
  · rw [if_pos h, max_eq_left h.le]
  · rw [if_neg (not_lt.mpr h), max_eq_right h]

/-- C9: the thread-count-ceiling setter stores max(v, 1); the chunk setter
stores the default chunk size when given a value at most 0 (= GxB_DEFAULT)
and max(c, 1) otherwise; consequently, on every global state reachable from
the initializer by setter calls, the two getters return at least 1. -/
theorem nthreads_and_chunk_floor :
    (∀ (v : Int) (g : GB_Global_struct),
        (GB_Global_nthreads_max_set v g).nthreads_max = max v 1) ∧
    (∀ (c : ℚ) (g : GB_Global_struct),
        (GB_Global_chunk_set c g).chunk =
          if c ≤ 0 then GB_CHUNK_DEFAULT else max c 1) ∧
    (∀ (g : GB_Global_struct), GB_Global_reachable g →
        1 ≤ GB_Global_nthreads_max_get g ∧ 1 ≤ GB_Global_chunk_get g) := by
  have hset : ∀ (v : Int) (g : GB_Global_struct),
      (GB_Global_nthreads_max_set v g).nthreads_max = max v 1 := by
    intro v g
    simp [GB_Global_nthreads_max_set, GB_IMAX_eq_max]
  have hchunk : ∀ (c : ℚ) (g : GB_Global_struct),
      (GB_Global_chunk_set c g).chunk =
        if c ≤ 0 then GB_CHUNK_DEFAULT else max c 1 := by
    intro c g
    simp only [GB_Global_chunk_set, GxB_DEFAULT_fp]
    rcases le_or_lt c 0 with h | h
    · rw [if_pos h, if_pos h]
      unfold GB_CHUNK_DEFAULT
      rw [max_eq_left (by norm_num)]
    · rw [if_neg (not_le.mpr h), if_neg (not_le.mpr h)]
  refine ⟨hset, hchunk, ?_⟩
  intro g hg
  induction hg with
  | refl =>
      refine ⟨?_, ?_⟩
      · norm_num [GB_Global_nthreads_max_get, GB_Global]
      · norm_num [GB_Global_chunk_get, GB_Global, GB_CHUNK_DEFAULT]
  | tail hrest hstep ih =>
      cases hstep with
      | nthreads_max_set v g =>
          refine ⟨?_, ih.2⟩
          rw [GB_Global_nthreads_max_get, hset]
          exact le_max_right v 1
      | chunk_set c g =>
          refine ⟨ih.1, ?_⟩
          rw [GB_Global_chunk_get, hchunk]
          rcases le_or_lt c 0 with h | h
          · rw [if_pos h]; unfold GB_CHUNK_DEFAULT; norm_num
          · rw [if_neg (not_le.mpr h)]; exact le_max_right c 1
      | queue_head_set p g => exact ih
      | mode_set m g => exact ih
      | GrB_init_called_set b g => exact ih
      | hyper_ratio_set h g => exact ih
      | is_csc_set b g => exact ih
      | abort_function_set f g => exact ih
      | malloc_function_set f g => exact ih
      | calloc_function_set f g => exact ih
      | realloc_function_set f g => exact ih
      | free_function_set f g => exact ih
      | malloc_is_thread_safe_set b g => exact ih

/-- Witness for C9 on the state reached by setting the ceiling to -5. -/
theorem nthreads_and_chunk_floor_witness :
    1 ≤ GB_Global_nthreads_max_get (GB_Global_nthreads_max_set (-5) GB_Global) ∧
    1 ≤ GB_Global_chunk_get (GB_Global_nthreads_max_set (-5) GB_Global) :=
  nthreads_and_chunk_floor.2.2 _
    (Relation.ReflTransGen.single (GB_Global_step.nthreads_max_set (-5) GB_Global))

/-- The pagerank field of any entry built by zipping ranks with pages is one
of the extracted rank values. -/
lemma pagerank_mem_zipWith :
    ∀ (X : List ℚ) (I : List Int) (a : PageRank),
      a ∈ List.zipWith (fun x i => PageRank.mk x i) X I → a.pagerank ∈ X := by
  intro X
  induction X with
  | nil => intro I a h; simp at h
  | cons x xs ih =>
      intro I a h
      cases I with
      | nil => simp at h
      | cons i is =>
          simp only [List.zipWith, List.mem_cons] at h
          rcases h with h | h
          · rw [h]
            exact List.mem_cons_self x xs
          · exact List.mem_cons_of_mem _ (ih is a h)

/-- C10: dpagerank2 on success returns an array of exactly n entries, sorted
by pagerank in descending order, in which every node absent from the
extracted rank vector occupies a trailing sentinel entry with pagerank 0 and
page -1 rather than being omitted. The extracted ranks are nonnegative (each
is a sum of nonnegative products plus the positive teleport term, scaled by
the positive total), which the hypothesis hpos records. -/
theorem dpagerank2_result_correct (n : ℕ) (I : List Int) (X : List ℚ)
    (hlen : I.length = X.length) (hn : X.length ≤ n)
    (hpos : ∀ x ∈ X, 0 ≤ x) :
    (dpagerank2_result n I X).length = n ∧
    List.Sorted (fun a b => b.pagerank ≤ a.pagerank) (dpagerank2_result n I X) ∧
    List.drop X.length (dpagerank2_result n I X) =
      List.replicate (n - X.length) (PageRank.mk 0 (-1)) := by
  simp only [dpagerank2_result]
  have hzlen :
      (List.zipWith (fun x i => PageRank.mk x i) X I).length = X.length := by
    rw [List.length_zipWith, hlen, min_self]
  have hslen :
      (List.insertionSort pagerank_le
        (List.zipWith (fun x i => PageRank.mk x i) X I)).length = X.length := by
    rw [List.length_insertionSort, hzlen]
  refine ⟨?_, ?_, ?_⟩
  · rw [List.length_append, hslen, List.length_replicate, hzlen]
    omega
  · rw [List.Sorted, List.pairwise_append]
    refine ⟨?_, ?_, ?_⟩
    · exact (List.sorted_insertionSort pagerank_le _).imp
        (fun hab => (pagerank_le_iff _ _).mp hab)
    · exact List.pairwise_replicate.mpr (Or.inr (le_refl (0 : ℚ)))
    · intro a ha b hb
      rw [List.eq_of_mem_replicate hb]
      exact hpos a.pagerank
        (pagerank_mem_zipWith X I a ((List.mem_insertionSort _).mp ha))
  · rw [hzlen, ← hslen, List.drop_left]

/-- Witness for C10: a 3-node graph whose extracted rank vector has the two
entries 1/2 (node 0) and 1/4 (node 1); node 2 is unranked. -/
theorem dpagerank2_result_correct_witness :
    ([0, 1] : List Int).length = ([1 / 2, 1 / 4] : List ℚ).length ∧
    ([1 / 2, 1 / 4] : List ℚ).length ≤ 3 ∧
    (∀ x ∈ ([1 / 2, 1 / 4] : List ℚ), 0 ≤ x) ∧
    ((dpagerank2_result 3 [0, 1] [1 / 2, 1 / 4]).length = 3 ∧
     List.Sorted (fun a b => b.pagerank ≤ a.pagerank)
       (dpagerank2_result 3 [0, 1] [1 / 2, 1 / 4]) ∧
     List.drop ([1 / 2, 1 / 4] : List ℚ).length
         (dpagerank2_result 3 [0, 1] [1 / 2, 1 / 4]) =
       List.replicate (3 - ([1 / 2, 1 / 4] : List ℚ).length)
         (PageRank.mk 0 (-1))) :=
  ⟨rfl, by norm_num, by norm_num,
   dpagerank2_result_correct 3 [0, 1] [1 / 2, 1 / 4] rfl (by norm_num)
     (by norm_num)⟩
